import Mathlib

/-!
Verification of the police-parking simulation core
(`src/components/PoliceParkingGame.tsx`).

The per-frame vehicle simulation (`GameLoop`'s `useFrame` callback), the
collision-geometry construction (`computeBoundingBox`, `boundsBox`,
`obstacleBoxes`, `goalBox`) and the progression state machine of the
`PoliceParkingGame` component (`handleSuccess`, `handleCrash`,
`handleKeyPress`, the banner button handlers) are embedded as functions
over `ℝ`.  JavaScript numbers are idealised as real numbers; `Math.sign`
becomes `signum`, `Math.atan2` becomes `Complex.arg`, and three.js
`Vector3`/`Box3` become `V3`/`Box3` below.
-/

namespace PoliceParking

open Real

noncomputable section

open scoped Classical

/-- Model of a three.js `Vector3`. -/
structure V3 where
  x : ℝ
  y : ℝ
  z : ℝ

/-- Model of a three.js `Box3` (axis-aligned, corners `min`/`max`). -/
structure Box3 where
  min : V3
  max : V3

/-- Vector3.prototype.clone().sub(h) componentwise. -/
def V3.sub (a b : V3) : V3 := ⟨a.x - b.x, a.y - b.y, a.z - b.z⟩

/-- Vector3.prototype.clone().add(h) componentwise. -/
def V3.add (a b : V3) : V3 := ⟨a.x + b.x, a.y + b.y, a.z + b.z⟩

/-- Vector3.prototype.multiplyScalar. -/
def V3.scale (s : ℝ) (a : V3) : V3 := ⟨s * a.x, s * a.y, s * a.z⟩

/-- Vector3.prototype.setY (on a clone, as the source always clones first). -/
def V3.setY (a : V3) (y : ℝ) : V3 := ⟨a.x, y, a.z⟩

/-- Vector3.prototype.addScaledVector: `a + d * s`. -/
def V3.addScaledVector (a d : V3) (s : ℝ) : V3 :=
  ⟨a.x + d.x * s, a.y + d.y * s, a.z + d.z * s⟩

/-- three.js `Box3.containsPoint`: componentwise interval membership
(inclusive on both ends). -/
def Box3.containsPoint (b : Box3) (p : V3) : Prop :=
  b.min.x ≤ p.x ∧ p.x ≤ b.max.x ∧
  b.min.y ≤ p.y ∧ p.y ≤ b.max.y ∧
  b.min.z ≤ p.z ∧ p.z ≤ b.max.z

/-- three.js `Box3.intersectsBox`: the boxes are not separated on any
axis (touching counts as intersecting). -/
def Box3.intersectsBox (a b : Box3) : Prop :=
  a.min.x ≤ b.max.x ∧ b.min.x ≤ a.max.x ∧
  a.min.y ≤ b.max.y ∧ b.min.y ≤ a.max.y ∧
  a.min.z ≤ b.max.z ∧ b.min.z ≤ a.max.z

/-- Source `computeBoundingBox(center, size)`: the box with corners
`center ± size/2`. -/
def computeBoundingBox (center size : V3) : Box3 :=
  ⟨center.sub (V3.scale (1/2) size), center.add (V3.scale (1/2) size)⟩

/-- Keyboard intents reduced from key events (source `KeyboardState`). -/
structure KeyboardState where
  forward : Bool
  backward : Bool
  left : Bool
  right : Bool
  brake : Bool

/-- Obstacle entry of a level definition. -/
structure Obstacle where
  position : V3
  size : V3
  height : Option ℝ

/-- Arena bounds of a level (source `bounds: { width, height }`). -/
structure BoundsDef where
  width : ℝ
  height : ℝ

/-- Source `LevelDefinition`. -/
structure LevelDefinition where
  id : ℕ
  name : String
  start : V3
  startRotation : ℝ
  goalPosition : V3
  goalRotation : ℝ
  goalSize : V3
  obstacles : List Obstacle
  bounds : BoundsDef

/-- Level 1, "Training Grounds". -/
def level1 : LevelDefinition :=
  { id := 1
    name := "Training Grounds"
    start := ⟨-12, 0, 14⟩
    startRotation := π
    goalPosition := ⟨12, 0, -10⟩
    goalRotation := 0
    goalSize := ⟨6, 0, 12⟩
    obstacles :=
      [ ⟨⟨0, 0, 0⟩, ⟨4, 2, 16⟩, none⟩,
        ⟨⟨8, 0, 8⟩, ⟨4, 2, 4⟩, none⟩,
        ⟨⟨-8, 0, -6⟩, ⟨4, 2, 6⟩, none⟩ ]
    bounds := ⟨40, 30⟩ }

/-- Level 2, "Downtown Alley". -/
def level2 : LevelDefinition :=
  { id := 2
    name := "Downtown Alley"
    start := ⟨-16, 0, 12⟩
    startRotation := π / 2
    goalPosition := ⟨16, 0, -12⟩
    goalRotation := -(π / 2)
    goalSize := ⟨5, 0, 10⟩
    obstacles :=
      [ ⟨⟨-6, 0, 6⟩, ⟨3, 3, 6⟩, none⟩,
        ⟨⟨2, 0, 0⟩, ⟨3, 3, 14⟩, none⟩,
        ⟨⟨10, 0, -8⟩, ⟨3, 3, 6⟩, none⟩,
        ⟨⟨0, 0, -12⟩, ⟨20, 3, 2⟩, none⟩ ]
    bounds := ⟨48, 36⟩ }

/-- Level 3, "Rooftop Pursuit". -/
def level3 : LevelDefinition :=
  { id := 3
    name := "Rooftop Pursuit"
    start := ⟨18, 0, 14⟩
    startRotation := π
    goalPosition := ⟨-18, 0, -14⟩
    goalRotation := -π
    goalSize := ⟨5.5, 0, 11⟩
    obstacles :=
      [ ⟨⟨0, 0, 0⟩, ⟨6, 5, 6⟩, none⟩,
        ⟨⟨-10, 0, -6⟩, ⟨4, 4, 10⟩, none⟩,
        ⟨⟨10, 0, 6⟩, ⟨5, 4, 8⟩, none⟩,
        ⟨⟨-5, 0, 12⟩, ⟨3, 4, 4⟩, none⟩,
        ⟨⟨12, 0, -10⟩, ⟨5, 4, 5⟩, none⟩ ]
    bounds := ⟨52, 40⟩ }

/-- The level catalog (source `LEVELS`). -/
def LEVELS : List LevelDefinition := [level1, level2, level3]

/-- Source `carSize` constant. -/
def carSize : V3 := ⟨1.6, 1.2, 3⟩

/-- Source `boundsBox`: centered at the origin, size
`(width - 1, 5, height - 1)`. -/
def boundsBox (level : LevelDefinition) : Box3 :=
  computeBoundingBox ⟨0, 0, 0⟩ ⟨level.bounds.width - 1, 5, level.bounds.height - 1⟩

/-- Box derived from one obstacle entry (source `obstacleBoxes` body):
centered at height `(height ?? 2)/2`, footprint shrunk by `0.4` but
floored at `0.5`. -/
def obstacleBox (obstacle : Obstacle) : Box3 :=
  computeBoundingBox
    ⟨obstacle.position.x, obstacle.height.getD 2 / 2, obstacle.position.z⟩
    ⟨Max.max (obstacle.size.x - 0.4) 0.5, obstacle.height.getD 2,
      Max.max (obstacle.size.z - 0.4) 0.5⟩

/-- Source `obstacleBoxes`. -/
def obstacleBoxes (level : LevelDefinition) : List Box3 :=
  level.obstacles.map obstacleBox

/-- Source `goalBox`: centered at `y = 0.6`, footprint shrunk by `0.4`,
height `1.2`. -/
def goalBox (level : LevelDefinition) : Box3 :=
  computeBoundingBox
    ⟨level.goalPosition.x, 0.6, level.goalPosition.z⟩
    ⟨level.goalSize.x - 0.4, 1.2, level.goalSize.z - 0.4⟩

/-- JavaScript `Math.sign`. -/
def signum (x : ℝ) : ℝ := if x < 0 then -1 else if 0 < x then 1 else 0

/-- Source `accel`: `keyboard.forward ? 22 : keyboard.backward ? -16 : 0`. -/
def accelOf (keyboard : KeyboardState) : ℝ :=
  if keyboard.forward then 22 else if keyboard.backward then -16 else 0

/-- Source `brakeForce`: `keyboard.brake ? 35 : 0`. -/
def brakeForceOf (keyboard : KeyboardState) : ℝ :=
  if keyboard.brake then 35 else 0

/-- Source `maxSpeed`: `keyboard.backward ? 10 : 24`. -/
def maxSpeedOf (keyboard : KeyboardState) : ℝ :=
  if keyboard.backward then 10 else 24

/-- Source `friction`:
`keyboard.forward || keyboard.backward || keyboard.brake ? 5 : 8`. -/
def frictionOf (keyboard : KeyboardState) : ℝ :=
  if keyboard.forward || keyboard.backward || keyboard.brake then 5 else 8

/-- Braking block (source lines 359-365): while braking, snap to `0` if
one tick of brake force would cross zero, else subtract it against the
sign of the velocity. -/
def brakeStep (keyboard : KeyboardState) (delta v : ℝ) : ℝ :=
  if keyboard.brake then
    if |v| < brakeForceOf keyboard * delta then 0
    else v - signum v * (brakeForceOf keyboard * delta)
  else v

/-- Clamping (source line 367): `max (min v maxSpeed) (-10)`. -/
def clampStep (keyboard : KeyboardState) (v : ℝ) : ℝ :=
  Max.max (Min.min v (maxSpeedOf keyboard)) (-10)

/-- Passive damping (source lines 369-372): only when neither forward
nor backward intent is held, subtract `min |v| (friction * delta)`
against the sign of the velocity. -/
def dampStep (keyboard : KeyboardState) (delta v : ℝ) : ℝ :=
  if !keyboard.forward && !keyboard.backward then
    v - signum v * (Min.min |v| (frictionOf keyboard * delta))
  else v

/-- The whole longitudinal velocity pipeline of one tick
(acceleration, braking, clamping, passive damping; source lines
353-372). -/
def velocityPipeline (keyboard : KeyboardState) (delta v : ℝ) : ℝ :=
  dampStep keyboard delta
    (clampStep keyboard (brakeStep keyboard delta (v + accelOf keyboard * delta)))

/-- Source `steerInput`: `(left ? 1 : 0) - (right ? 1 : 0)`. -/
def steerInput (keyboard : KeyboardState) : ℝ :=
  (if keyboard.left then 1 else 0) - (if keyboard.right then 1 else 0)

/-- Source `turnAmount` with `steerSpeed = 1.7` and
`steerIntensity = min (|v| / 10) 1`. -/
def turnAmount (keyboard : KeyboardState) (delta v : ℝ) : ℝ :=
  steerInput keyboard * 1.7 * Min.min (|v| / 10) 1 * delta

/-- `new Vector3(0, 0, 1).applyAxisAngle(new Vector3(0, 1, 0), rot)`:
the unit forward vector for heading `rot`. -/
def forwardMove (rot : ℝ) : V3 := ⟨Real.sin rot, 0, Real.cos rot⟩

/-- JavaScript `Math.atan2`, modelled by the complex argument
(range `(-π, π]`). -/
def atan2 (y x : ℝ) : ℝ := Complex.arg ⟨x, y⟩

/-- The per-level mutable state held by `GameLoop`: the car group's
position and y-rotation, and the refs `velocity`, `timeRef`,
`bumpsRef`. -/
structure CarState where
  position : V3
  rotY : ℝ
  velocity : ℝ
  time : ℝ
  bumps : ℕ

/-- Source `resetCarState`: zero the velocity, timer and per-level bump
count and teleport to the level's start pose (`y` forced to `0.4`). -/
def resetCarState (level : LevelDefinition) : CarState :=
  { position := level.start.setY 0.4
    rotY := level.startRotation
    velocity := 0
    time := 0
    bumps := 0 }

/-- Velocity after the longitudinal pipeline of a tick starting in
state `s`. -/
def postVel (keyboard : KeyboardState) (delta : ℝ) (s : CarState) : ℝ :=
  velocityPipeline keyboard delta s.velocity

/-- Heading after steering. -/
def postRot (keyboard : KeyboardState) (delta : ℝ) (s : CarState) : ℝ :=
  s.rotY + turnAmount keyboard delta (postVel keyboard delta s)

/-- Position after the translation
`car.position.addScaledVector(forwardMove, velocity * delta)`. -/
def movedPos (keyboard : KeyboardState) (delta : ℝ) (s : CarState) : V3 :=
  s.position.addScaledVector (forwardMove (postRot keyboard delta s))
    (postVel keyboard delta s * delta)

/-- Boundary violation test (source line 383): the moved position with
`y` set to `1` is not inside `boundsBox`. -/
def boundaryHit (level : LevelDefinition) (keyboard : KeyboardState)
    (delta : ℝ) (s : CarState) : Prop :=
  ¬ (boundsBox level).containsPoint ((movedPos keyboard delta s).setY 1)

/-- Position after boundary resolution: revert to the pre-move position
on a boundary hit. -/
def pos2 (level : LevelDefinition) (keyboard : KeyboardState)
    (delta : ℝ) (s : CarState) : V3 :=
  if boundaryHit level keyboard delta s then s.position
  else movedPos keyboard delta s

/-- Velocity after boundary resolution (restitution `* -0.3`). -/
def vel2 (level : LevelDefinition) (keyboard : KeyboardState)
    (delta : ℝ) (s : CarState) : ℝ :=
  if boundaryHit level keyboard delta s then postVel keyboard delta s * (-0.3)
  else postVel keyboard delta s

/-- The car's own collision box (source `carBox`): centered at the
current position with `y = 0.6`, size `(1.6, 1.2, 3 * 0.7)`. -/
def carBox (p : V3) : Box3 :=
  computeBoundingBox (p.setY 0.6) ⟨carSize.x, carSize.y, carSize.z * 0.7⟩

/-- Obstacle collision test (source line 394). -/
def obstacleHit (level : LevelDefinition) (keyboard : KeyboardState)
    (delta : ℝ) (s : CarState) : Prop :=
  ∃ box ∈ obstacleBoxes level,
    box.intersectsBox (carBox (pos2 level keyboard delta s))

/-- Position after obstacle resolution: revert to the pre-move position
on a collision. -/
def pos3 (level : LevelDefinition) (keyboard : KeyboardState)
    (delta : ℝ) (s : CarState) : V3 :=
  if obstacleHit level keyboard delta s then s.position
  else pos2 level keyboard delta s

/-- Velocity after obstacle resolution (restitution `* -0.4`). -/
def vel3 (level : LevelDefinition) (keyboard : KeyboardState)
    (delta : ℝ) (s : CarState) : ℝ :=
  if obstacleHit level keyboard delta s then vel2 level keyboard delta s * (-0.4)
  else vel2 level keyboard delta s

/-- Per-level bump count after both collision checks. -/
def bumpsAfter (level : LevelDefinition) (keyboard : KeyboardState)
    (delta : ℝ) (s : CarState) : ℕ :=
  s.bumps + (if boundaryHit level keyboard delta s then 1 else 0)
    + (if obstacleHit level keyboard delta s then 1 else 0)

/-- Source `facingRequirement`:
`|atan2 (sin (rot - goalRotation)) (cos (rot - goalRotation))|`. -/
def facingRequirement (rot goalRotation : ℝ) : ℝ :=
  |atan2 (Real.sin (rot - goalRotation)) (Real.cos (rot - goalRotation))|

/-- Arrival condition (source line 405): inside the goal box, nearly at
rest, and facing within `0.3` rad of the goal heading. -/
def arrivedProp (level : LevelDefinition) (keyboard : KeyboardState)
    (delta : ℝ) (s : CarState) : Prop :=
  (goalBox level).containsPoint ((pos3 level keyboard delta s).setY 0.6) ∧
  |vel3 level keyboard delta s| < 1.2 ∧
  facingRequirement (postRot keyboard delta s) level.goalRotation < 0.3

/-- Velocity after the arrival block (forced to `0` on arrival). -/
def vel4 (level : LevelDefinition) (keyboard : KeyboardState)
    (delta : ℝ) (s : CarState) : ℝ :=
  if arrivedProp level keyboard delta s then 0 else vel3 level keyboard delta s

/-- Over-speed test of the crash block, applied to the end-of-tick
velocity (source line 410). -/
def overSpeed (v : ℝ) : Prop := |v| > 35

/-- Crash condition of a tick. -/
def crashedProp (level : LevelDefinition) (keyboard : KeyboardState)
    (delta : ℝ) (s : CarState) : Prop :=
  overSpeed (vel4 level keyboard delta s)

/-- Result of one `useFrame` tick: the updated car state plus whether
`onSuccess` (Arrived) and `onCrash` (Crashed) were invoked. -/
structure TickResult where
  state : CarState
  arrived : Prop
  crashed : Prop

/-- One full `useFrame` tick (source lines 346-414): timer update,
velocity pipeline, steering, translation, boundary resolution, obstacle
resolution, arrival check (zeroing the velocity), over-speed check
(resetting the car state). -/
def tick (level : LevelDefinition) (keyboard : KeyboardState)
    (delta : ℝ) (s : CarState) : TickResult :=
  { state :=
      if crashedProp level keyboard delta s then resetCarState level
      else
        { position := pos3 level keyboard delta s
          rotY := postRot keyboard delta s
          velocity := vel4 level keyboard delta s
          time := s.time + delta
          bumps := bumpsAfter level keyboard delta s }
    arrived := arrivedProp level keyboard delta s
    crashed := crashedProp level keyboard delta s }

/-- The car state after one tick. -/
def tickState (level : LevelDefinition) (keyboard : KeyboardState)
    (delta : ℝ) (s : CarState) : CarState :=
  (tick level keyboard delta s).state

/-- The all-false intent state (no key held). -/
def noKeys : KeyboardState := ⟨false, false, false, false, false⟩

/-- Source `GameState` tagged union. -/
inductive GameStatus where
  | intro : GameStatus
  | playing (levelIndex : ℕ) (startedAt : ℝ) : GameStatus
  | success (levelIndex : ℕ) (elapsed : ℝ) (bumps : ℕ) : GameStatus
  | complete (totalTime : ℝ) (totalBumps : ℕ) : GameStatus

/-- State owned by the `PoliceParkingGame` component: the progression
status and the session accumulators `totalTime` / `totalBumps`, plus the
`resetSignal` counter. -/
structure AppState where
  gameState : GameStatus
  totalTime : ℝ
  totalBumps : ℕ
  resetSignal : ℕ

/-- Source `startLevel`: enter `playing` for the given index and bump
the reset signal. -/
def startLevel (a : AppState) (levelIndex : ℕ) (now : ℝ) : AppState :=
  { a with
    gameState := GameStatus.playing levelIndex now
    resetSignal := a.resetSignal + 1 }

/-- Source `handleSuccess(elapsedSeconds, bumps)`: ignore the event
unless `playing`; otherwise fold the level's elapsed time and bumps into
the session accumulators and move to `complete` (after the last level)
or `success`. -/
def handleSuccess (a : AppState) (elapsedSeconds : ℝ) (bumps : ℕ) : AppState :=
  match a.gameState with
  | GameStatus.playing levelIndex _ =>
      let nextTotalTime := a.totalTime + elapsedSeconds
      let nextTotalBumps := a.totalBumps + bumps
      if levelIndex = LEVELS.length - 1 then
        { a with
          gameState := GameStatus.complete nextTotalTime nextTotalBumps
          totalTime := nextTotalTime
          totalBumps := nextTotalBumps }
      else
        { a with
          gameState := GameStatus.success levelIndex elapsedSeconds bumps
          totalTime := nextTotalTime
          totalBumps := nextTotalBumps }
  | _ => a

/-- Source `handleCrash`: increment the session bump accumulator. -/
def handleCrash (a : AppState) : AppState :=
  { a with totalBumps := a.totalBumps + 1 }

/-- Combined effect of a Crashed tick on the controller and the car
(source lines 410-413: `onCrash()` then `resetCarState()`). -/
def handleCrashEvent (level : LevelDefinition) (a : AppState)
    (_car : CarState) : AppState × CarState :=
  (handleCrash a, resetCarState level)

/-- Key identifiers that `handleKeyPress` distinguishes. -/
inductive KeyCode where
  | enter : KeyCode
  | space : KeyCode
  | keyR : KeyCode
  | other : KeyCode
deriving DecidableEq

/-- Source `handleKeyPress`: Enter/Space starts level 0 from the intro,
advances from a success banner, or returns from the complete banner to
the intro while zeroing both accumulators; R while playing bumps the
reset signal. -/
def handleKeyPress (a : AppState) (code : KeyCode) (now : ℝ) : AppState :=
  let a1 :=
    if code = KeyCode.enter ∨ code = KeyCode.space then
      match a.gameState with
      | GameStatus.intro => startLevel a 0 now
      | GameStatus.success levelIndex _ _ => startLevel a (levelIndex + 1) now
      | GameStatus.complete _ _ =>
          { a with
            gameState := GameStatus.intro
            totalBumps := 0
            totalTime := 0 }
      | GameStatus.playing _ _ => a
    else a
  if code = KeyCode.keyR then
    match a.gameState with
    | GameStatus.playing _ _ => { a1 with resetSignal := a1.resetSignal + 1 }
    | _ => a1
  else a1

/-- The complete banner's "Run It Back" button handler (source line
563): `setGameState({ status: "intro" })` and nothing else. -/
def runItBackClick (a : AppState) : AppState :=
  { a with gameState := GameStatus.intro }

/-- Boundary volume as the specification words it: the arena box shrunk
inward by the vehicle's half-width and half-depth (footprint `1.6 × 3`,
so `0.8` and `1.5` per side); stated for comparison against the source's
`boundsBox`. -/
def boundsBoxSpec (level : LevelDefinition) : Box3 :=
  computeBoundingBox ⟨0, 0, 0⟩
    ⟨level.bounds.width - carSize.x, 5, level.bounds.height - carSize.z⟩

end

open scoped Classical

/-! Section: Helper lemmas -/

theorem frictionOf_pos (keyboard : KeyboardState) : 0 < frictionOf keyboard := by
  unfold frictionOf
  split <;> norm_num

/-- Subtracting `min |v| c` against the sign of `v` moves `|v|` down by
exactly `c`, saturating at zero. -/
theorem abs_damp_sub (v c : ℝ) (hc : 0 ≤ c) :
    |v - signum v * Min.min |v| c| = Max.max (|v| - c) 0 := by
  rcases lt_trichotomy v 0 with hv | hv | hv
  · rw [abs_of_neg hv, signum, if_pos hv]
    rcases le_total (-v) c with hvc | hvc
    · rw [min_eq_left hvc, max_eq_right (by linarith)]
      have : v - -1 * -v = 0 := by ring
      rw [this, abs_zero]
    · rw [min_eq_right hvc, max_eq_left (by linarith)]
      have : v - -1 * c = v + c := by ring
      rw [this, abs_of_nonpos (by linarith)]
      ring
  · subst hv
    rw [signum, if_neg (lt_irrefl 0), if_neg (lt_irrefl 0), abs_zero,
      max_eq_right (by linarith)]
    simp
  · rw [abs_of_pos hv, signum, if_neg (by linarith), if_pos hv]
    rcases le_total v c with hvc | hvc
    · rw [min_eq_left hvc, max_eq_right (by linarith)]
      have : v - 1 * v = 0 := by ring
      rw [this, abs_zero]
    · rw [min_eq_right hvc, max_eq_left (by linarith)]
      have : v - 1 * c = v - c := by ring
      rw [this, abs_of_nonneg (by linarith)]

/-- The damping subtraction never crosses zero: the result has the same
sign as the input or is zero. -/
theorem damp_sub_sign (v c : ℝ) (hc : 0 ≤ c) :
    0 ≤ v * (v - signum v * Min.min |v| c) := by
  rcases lt_trichotomy v 0 with hv | hv | hv
  · rw [abs_of_neg hv, signum, if_pos hv]
    have h1 : v - -1 * Min.min (-v) c ≤ 0 := by
      have : Min.min (-v) c ≤ -v := min_le_left _ _
      nlinarith
    nlinarith [mul_nonneg (neg_nonneg.2 (le_of_lt hv)) (neg_nonneg.2 h1)]
  · subst hv
    simp
  · rw [abs_of_pos hv, signum, if_neg (by linarith), if_pos hv]
    have h1 : 0 ≤ v - 1 * Min.min v c := by
      have : Min.min v c ≤ v := min_le_left _ _
      nlinarith
    exact mul_nonneg (le_of_lt hv) h1

theorem abs_damp_sub_le (v c : ℝ) (hc : 0 ≤ c) :
    |v - signum v * Min.min |v| c| ≤ |v| := by
  rw [abs_damp_sub v c hc]
  exact max_le (by linarith [abs_nonneg v]) (abs_nonneg v)

/-! Section: C1: passive damping rates -/

/-- Claim C1 counterexample: with the forward intent held (velocity 10,
`dt = 0.1`) the code applies no passive damping at all, whereas the
claim says the velocity decays toward zero at 5 units/s². -/
theorem C1_counterexample :
    dampStep ⟨true, false, false, false, false⟩ (1/10) 10 = 10 ∧
    ¬ |dampStep ⟨true, false, false, false, false⟩ (1/10) 10|
        = Max.max (|(10 : ℝ)| - 5 * (1/10)) 0 := by
  constructor
  · simp [dampStep]
  · simp [dampStep]
    norm_num

/-- Claim C1 (amended): when none of forward/backward/brake is held the
passive damping moves `|velocity|` down by exactly `8 * dt` (saturating
at zero); when brake is held but neither forward nor backward, by
exactly `5 * dt`; when forward or backward is held no passive damping is
applied at all; and damping never changes the sign of the velocity nor
increases its magnitude. -/
theorem C1_theorem (keyboard : KeyboardState) (delta v : ℝ) (hdt : 0 < delta) :
    (keyboard.forward = false ∧ keyboard.backward = false ∧ keyboard.brake = false →
      |dampStep keyboard delta v| = Max.max (|v| - 8 * delta) 0) ∧
    (keyboard.forward = false ∧ keyboard.backward = false ∧ keyboard.brake = true →
      |dampStep keyboard delta v| = Max.max (|v| - 5 * delta) 0) ∧
    (keyboard.forward = true ∨ keyboard.backward = true →
      dampStep keyboard delta v = v) ∧
    0 ≤ v * dampStep keyboard delta v ∧
    |dampStep keyboard delta v| ≤ |v| := by
  refine ⟨?_, ?_, ?_, ?_, ?_⟩
  · rintro ⟨hf, hb, hk⟩
    rw [dampStep, if_pos (by rw [hf, hb]; rfl), frictionOf,
      if_neg (by rw [hf, hb, hk]; simp)]
    exact abs_damp_sub v (8 * delta) (by linarith)
  · rintro ⟨hf, hb, hk⟩
    rw [dampStep, if_pos (by rw [hf, hb]; rfl), frictionOf,
      if_pos (by rw [hf, hb, hk]; simp)]
    exact abs_damp_sub v (5 * delta) (by linarith)
  · intro h
    rw [dampStep, if_neg]
    rcases h with h | h <;> rw [h] <;> simp
  · by_cases h : (!keyboard.forward && !keyboard.backward) = true
    · rw [dampStep, if_pos h]
      exact damp_sub_sign v _
        (mul_nonneg (le_of_lt (frictionOf_pos keyboard)) (le_of_lt hdt))
    · rw [dampStep, if_neg h]
      exact mul_self_nonneg v
  · by_cases h : (!keyboard.forward && !keyboard.backward) = true
    · rw [dampStep, if_pos h]
      exact abs_damp_sub_le v _
        (mul_nonneg (le_of_lt (frictionOf_pos keyboard)) (le_of_lt hdt))
    · rw [dampStep, if_neg h]

/-- Witness for C1 at keyboard `noKeys`, `v = 10`, `dt = 0.1`. -/
theorem C1_witness :
    |dampStep noKeys (1/10) 10| = Max.max (|(10 : ℝ)| - 8 * (1/10)) 0 :=
  (C1_theorem noKeys (1/10) 10 (by norm_num)).1 ⟨rfl, rfl, rfl⟩

/-! Section: C3: boundary volume versus vehicle half-extents -/

/-- Claim C3 counterexample: the source's boundary volume for level 1 is
not the arena box shrunk by the vehicle's half-width/half-depth (the
latter would end at `x = 19.2`, the code's box ends at `x = 19.5`). -/
theorem C3_counterexample : ¬ boundsBox level1 = boundsBoxSpec level1 := by
  intro h
  have h1 := congrArg (fun b => b.max.x) h
  simp [boundsBox, boundsBoxSpec, computeBoundingBox, V3.add, V3.scale,
    level1, carSize] at h1
  norm_num at h1

/-- Claim C3 (amended): for every level, the boundary volume is the
arena box shrunk inward by a fixed `0.5` units on each horizontal side
(size `width - 1` by `height - 1`), not by the vehicle's half-extents. -/
theorem C3_theorem (level : LevelDefinition) :
    (boundsBox level).min.x = -(level.bounds.width / 2) + 0.5 ∧
    (boundsBox level).max.x = level.bounds.width / 2 - 0.5 ∧
    (boundsBox level).min.z = -(level.bounds.height / 2) + 0.5 ∧
    (boundsBox level).max.z = level.bounds.height / 2 - 0.5 := by
  refine ⟨?_, ?_, ?_, ?_⟩ <;>
    simp [boundsBox, computeBoundingBox, V3.add, V3.sub, V3.scale] <;> ring

/-! Section: C4: return-to-menu accumulator reset -/

/-- Claim C4 (code bug evidence): the "Run It Back" button transitions
`complete → intro` without clearing the session accumulators, while the
Enter/Space path from the same state clears both. -/
theorem C4_theorem :
    (runItBackClick ⟨GameStatus.complete 40 3, 40, 3, 0⟩).gameState
        = GameStatus.intro ∧
    (runItBackClick ⟨GameStatus.complete 40 3, 40, 3, 0⟩).totalTime = 40 ∧
    (runItBackClick ⟨GameStatus.complete 40 3, 40, 3, 0⟩).totalBumps = 3 ∧
    (handleKeyPress ⟨GameStatus.complete 40 3, 40, 3, 0⟩ KeyCode.enter 0).totalTime
        = 0 ∧
    (handleKeyPress ⟨GameStatus.complete 40 3, 40, 3, 0⟩ KeyCode.enter 0).totalBumps
        = 0 := by
  refine ⟨rfl, rfl, rfl, ?_, ?_⟩ <;> rfl

/-! Section: C7: crash handling while playing -/

/-- Claim C7 counterexample: a crash handled with the per-level timer at
5 seconds leaves the timer at 0, not 5 — `resetCarState` restarts the
clock, contrary to the claim. -/
theorem C7_counterexample :
    (handleCrashEvent level1 ⟨GameStatus.playing 0 0, 0, 0, 0⟩
        ⟨⟨0, 0.4, 0⟩, 0, 0, 5, 2⟩).2.time = 0 ∧
    ¬ (handleCrashEvent level1 ⟨GameStatus.playing 0 0, 0, 0, 0⟩
        ⟨⟨0, 0.4, 0⟩, 0, 0, 5, 2⟩).2.time
        = (⟨⟨0, 0.4, 0⟩, 0, 0, 5, 2⟩ : CarState).time := by
  refine ⟨rfl, ?_⟩
  show ¬ (0 : ℝ) = 5
  norm_num

/-- Claim C7 (amended): on a Crashed event while in `playing i`, the
progression stays in `playing i`, the session bump accumulator
increments, and the vehicle state resets to the level's start pose with
zero velocity — and the per-level elapsed timer is reset to zero rather
than keeping its accumulated value. -/
theorem C7_theorem (level : LevelDefinition) (a : AppState) (car : CarState)
    (i : ℕ) (startedAt : ℝ) (h : a.gameState = GameStatus.playing i startedAt) :
    (handleCrashEvent level a car).1.gameState = GameStatus.playing i startedAt ∧
    (handleCrashEvent level a car).1.totalBumps = a.totalBumps + 1 ∧
    (handleCrashEvent level a car).2.position = level.start.setY 0.4 ∧
    (handleCrashEvent level a car).2.rotY = level.startRotation ∧
    (handleCrashEvent level a car).2.velocity = 0 ∧
    (handleCrashEvent level a car).2.time = 0 :=
  ⟨h, rfl, rfl, rfl, rfl, rfl⟩

/-- Witness for C7 at level 1 with the progression in `playing 0`. -/
theorem C7_witness :
    (handleCrashEvent level1 ⟨GameStatus.playing 0 0, 1, 2, 0⟩
        ⟨⟨0, 0, 0⟩, 0, 0, 5, 0⟩).1.gameState = GameStatus.playing 0 0 ∧
    (handleCrashEvent level1 ⟨GameStatus.playing 0 0, 1, 2, 0⟩
        ⟨⟨0, 0, 0⟩, 0, 0, 5, 0⟩).1.totalBumps = 2 + 1 ∧
    (handleCrashEvent level1 ⟨GameStatus.playing 0 0, 1, 2, 0⟩
        ⟨⟨0, 0, 0⟩, 0, 0, 5, 0⟩).2.position = level1.start.setY 0.4 ∧
    (handleCrashEvent level1 ⟨GameStatus.playing 0 0, 1, 2, 0⟩
        ⟨⟨0, 0, 0⟩, 0, 0, 5, 0⟩).2.rotY = level1.startRotation ∧
    (handleCrashEvent level1 ⟨GameStatus.playing 0 0, 1, 2, 0⟩
        ⟨⟨0, 0, 0⟩, 0, 0, 5, 0⟩).2.velocity = 0 ∧
    (handleCrashEvent level1 ⟨GameStatus.playing 0 0, 1, 2, 0⟩
        ⟨⟨0, 0, 0⟩, 0, 0, 5, 0⟩).2.time = 0 :=
  C7_theorem level1 ⟨GameStatus.playing 0 0, 1, 2, 0⟩ ⟨⟨0, 0, 0⟩, 0, 0, 5, 0⟩ 0 0 rfl

/-! Section: Velocity magnitude bounds through one tick -/

theorem maxSpeedOf_le_24 (keyboard : KeyboardState) : maxSpeedOf keyboard ≤ 24 := by
  unfold maxSpeedOf
  split <;> norm_num

theorem clampStep_bounds (keyboard : KeyboardState) (v : ℝ) :
    -10 ≤ clampStep keyboard v ∧ clampStep keyboard v ≤ 24 :=
  ⟨le_max_right _ _,
    max_le (le_trans (min_le_right _ _) (maxSpeedOf_le_24 keyboard)) (by norm_num)⟩

theorem abs_clampStep_le_24 (keyboard : KeyboardState) (v : ℝ) :
    |clampStep keyboard v| ≤ 24 :=
  abs_le.2 ⟨by linarith [(clampStep_bounds keyboard v).1], (clampStep_bounds keyboard v).2⟩

theorem abs_dampStep_le_abs (keyboard : KeyboardState) (delta v : ℝ)
    (hdt : 0 ≤ delta) : |dampStep keyboard delta v| ≤ |v| := by
  by_cases h : (!keyboard.forward && !keyboard.backward) = true
  · rw [dampStep, if_pos h]
    exact abs_damp_sub_le v _
      (mul_nonneg (le_of_lt (frictionOf_pos keyboard)) hdt)
  · rw [dampStep, if_neg h]

theorem abs_postVel_le_24 (keyboard : KeyboardState) (delta : ℝ) (s : CarState)
    (hdt : 0 ≤ delta) : |postVel keyboard delta s| ≤ 24 :=
  le_trans (abs_dampStep_le_abs keyboard delta _ hdt) (abs_clampStep_le_24 keyboard _)

theorem abs_mul_le_of_abs_le_one (x c : ℝ) (h : |c| ≤ 1) : |x * c| ≤ |x| := by
  rw [abs_mul]
  nlinarith [abs_nonneg x, abs_nonneg c]

theorem abs_vel3_le_24 (level : LevelDefinition) (keyboard : KeyboardState)
    (delta : ℝ) (s : CarState) (hdt : 0 ≤ delta) :
    |vel3 level keyboard delta s| ≤ 24 := by
  have h2 : |vel2 level keyboard delta s| ≤ 24 := by
    rw [vel2]
    split
    · exact le_trans
        (abs_mul_le_of_abs_le_one _ _
          (by rw [abs_neg, abs_of_nonneg (by norm_num : (0:ℝ) ≤ 0.3)]; norm_num))
        (abs_postVel_le_24 keyboard delta s hdt)
    · exact abs_postVel_le_24 keyboard delta s hdt
  rw [vel3]
  split
  · exact le_trans
      (abs_mul_le_of_abs_le_one _ _
        (by rw [abs_neg, abs_of_nonneg (by norm_num : (0:ℝ) ≤ 0.4)]; norm_num)) h2
  · exact h2

theorem abs_vel4_le_24 (level : LevelDefinition) (keyboard : KeyboardState)
    (delta : ℝ) (s : CarState) (hdt : 0 ≤ delta) :
    |vel4 level keyboard delta s| ≤ 24 := by
  rw [vel4]
  split
  · norm_num
  · exact abs_vel3_le_24 level keyboard delta s hdt

theorem tick_not_crashed (level : LevelDefinition) (keyboard : KeyboardState)
    (delta : ℝ) (s : CarState) (hdt : 0 ≤ delta) :
    ¬ (tick level keyboard delta s).crashed := by
  show ¬ crashedProp level keyboard delta s
  rw [crashedProp, overSpeed]
  intro h
  linarith [abs_vel4_le_24 level keyboard delta s hdt]

/-! Section: C8: over-speed threshold -/

/-- Claim C8 counterexample (negation of the claim): although the
comparison is strict, no tick input with `dt ≥ 0` ever signals Crashed —
the existential half of the claim ("some reachable tick input with
end-of-tick speed above 35 signals Crashed") is false. -/
theorem C8_counterexample :
    ¬ (¬ overSpeed (35 : ℝ) ∧
        ∃ (level : LevelDefinition) (keyboard : KeyboardState) (s : CarState)
          (delta : ℝ), 0 ≤ delta ∧ (tick level keyboard delta s).crashed) := by
  rintro ⟨-, level, keyboard, s, delta, hdt, hc⟩
  exact tick_not_crashed level keyboard delta s hdt hc

/-- Claim C8 (amended): the over-speed comparison is a strict threshold
(`|v| = 35` does not satisfy it while `35.0001` would), but the
end-of-tick velocity magnitude never exceeds `24` for any tick with
`dt ≥ 0`, so the check can never actually fire. -/
theorem C8_theorem :
    ¬ overSpeed (35 : ℝ) ∧ overSpeed (35.0001 : ℝ) ∧
    ∀ (level : LevelDefinition) (keyboard : KeyboardState) (s : CarState)
      (delta : ℝ), 0 ≤ delta → ¬ overSpeed (vel4 level keyboard delta s) := by
  refine ⟨?_, ?_, ?_⟩
  · rw [overSpeed, abs_of_nonneg (by norm_num : (0:ℝ) ≤ 35)]
    norm_num
  · rw [overSpeed, abs_of_nonneg (by norm_num : (0:ℝ) ≤ 35.0001)]
    norm_num
  · intro level keyboard s delta hdt
    rw [overSpeed]
    intro h
    linarith [abs_vel4_le_24 level keyboard delta s hdt]

/-- Witness for C8 at level 1, no keys, `dt = 0.1`. -/
theorem C8_witness :
    ¬ overSpeed (vel4 level1 noKeys (1/10) ⟨⟨0, 0.4, 0⟩, 0, 0, 0, 0⟩) :=
  C8_theorem.2.2 level1 noKeys ⟨⟨0, 0.4, 0⟩, 0, 0, 0, 0⟩ (1/10) (by norm_num)

/-! Section: C9: the crash signal is unreachable -/

/-- Claim C9: for every input state, intents and `dt ≥ 0`, the velocity
at the over-speed check is bounded by `24` in magnitude (the clamp caps
it and nothing afterwards increases it), hence Crashed is never
signalled by the simulation step. -/
theorem C9_theorem (level : LevelDefinition) (keyboard : KeyboardState)
    (s : CarState) (delta : ℝ) (hdt : 0 ≤ delta) :
    |vel4 level keyboard delta s| ≤ 24 ∧ ¬ (tick level keyboard delta s).crashed :=
  ⟨abs_vel4_le_24 level keyboard delta s hdt,
    tick_not_crashed level keyboard delta s hdt⟩

/-- Witness for C9 at level 2, all intents held, `dt = 0.25`. -/
theorem C9_witness :
    |vel4 level2 ⟨true, true, true, true, true⟩ (1/4) ⟨⟨3, 0.4, 2⟩, 1, 100, 0, 0⟩| ≤ 24 ∧
    ¬ (tick level2 ⟨true, true, true, true, true⟩ (1/4) ⟨⟨3, 0.4, 2⟩, 1, 100, 0, 0⟩).crashed :=
  C9_theorem level2 ⟨true, true, true, true, true⟩ ⟨⟨3, 0.4, 2⟩, 1, 100, 0, 0⟩ (1/4)
    (by norm_num)

/-! Section: C2: the arrival condition -/

/-- The code's `atan2(sin d, cos d)` is exactly the reduction of `d`
into `(-π, π]`. -/
theorem atan2_sin_cos (d : ℝ) :
    atan2 (Real.sin d) (Real.cos d) = toIocMod Real.two_pi_pos (-π) d := by
  have h : (⟨Real.cos d, Real.sin d⟩ : ℂ) = Complex.cos d + Complex.sin d * Complex.I := by
    apply Complex.ext <;>
      simp [Complex.cos_ofReal_re, Complex.sin_ofReal_re]
  rw [atan2, h, Complex.arg_cos_add_sin_mul_I_eq_toIocMod]

/-- Source `facingRequirement` equals the absolute value of the heading
error normalized to `(-π, π]`. -/
theorem facingRequirement_eq (rot goalRotation : ℝ) :
    facingRequirement rot goalRotation
      = |toIocMod Real.two_pi_pos (-π) (rot - goalRotation)| := by
  rw [facingRequirement, atan2_sin_cos]

/-- Claim C2: the tick signals Arrived exactly when, at the end of the
tick, the position is inside the goal volume, `|velocity| < 1.2`, and
the heading error normalized to `(-π, π]` is below `0.3` rad in absolute
value (so a state satisfying only two of the three is not Arrived); and
on Arrived the velocity is forced to `0` while position and heading are
left as the collision phase produced them. -/
theorem C2_theorem (level : LevelDefinition) (keyboard : KeyboardState)
    (delta : ℝ) (s : CarState) :
    ((tick level keyboard delta s).arrived ↔
      ((goalBox level).containsPoint ((pos3 level keyboard delta s).setY 0.6) ∧
       |vel3 level keyboard delta s| < 1.2 ∧
       |toIocMod Real.two_pi_pos (-π)
           (postRot keyboard delta s - level.goalRotation)| < 0.3)) ∧
    ((tick level keyboard delta s).arrived →
      (tick level keyboard delta s).state.velocity = 0 ∧
      (tick level keyboard delta s).state.position = pos3 level keyboard delta s ∧
      (tick level keyboard delta s).state.rotY = postRot keyboard delta s) := by
  have harr : (tick level keyboard delta s).arrived
      = arrivedProp level keyboard delta s := rfl
  constructor
  · rw [harr, arrivedProp, facingRequirement_eq]
  · intro h
    rw [harr] at h
    have hv : vel4 level keyboard delta s = 0 := by
      rw [vel4, if_pos h]
    have hnc : ¬ crashedProp level keyboard delta s := by
      rw [crashedProp, overSpeed, hv]
      norm_num
    have hs : (tick level keyboard delta s).state
        = { position := pos3 level keyboard delta s
            rotY := postRot keyboard delta s
            velocity := vel4 level keyboard delta s
            time := s.time + delta
            bumps := bumpsAfter level keyboard delta s } := by
      rw [tick]
      exact if_neg hnc
    rw [hs, hv]
    exact ⟨rfl, rfl, rfl⟩

/-! Section: Concrete tick evaluation helpers -/

theorem postVel_noKeys (delta : ℝ) (s : CarState) :
    postVel noKeys delta s = dampStep noKeys delta (clampStep noKeys s.velocity) := by
  simp [postVel, velocityPipeline, brakeStep, accelOf, noKeys]

theorem postRot_noKeys (delta : ℝ) (s : CarState) :
    postRot noKeys delta s = s.rotY := by
  simp [postRot, turnAmount, steerInput, noKeys]

theorem clampStep_noKeys_of_le (v : ℝ) (h1 : -10 ≤ v) (h2 : v ≤ 24) :
    clampStep noKeys v = v := by
  rw [clampStep, maxSpeedOf]
  simp only [noKeys, Bool.false_eq_true, if_false]
  rw [min_eq_left h2, max_eq_left h1]

theorem dampStep_noKeys_pos (delta v : ℝ) (h1 : 0 < v) (h2 : 8 * delta ≤ v) :
    dampStep noKeys delta v = v - 8 * delta := by
  rw [dampStep]
  simp only [noKeys, Bool.not_false, Bool.and_self, if_true]
  rw [frictionOf]
  simp only [noKeys, Bool.or_self, Bool.false_eq_true, if_false]
  rw [signum, if_neg (by linarith), if_pos h1, abs_of_pos h1, min_eq_right h2]
  ring

theorem dampStep_noKeys_zero (delta : ℝ) :
    dampStep noKeys delta 0 = 0 := by
  rw [dampStep]
  simp only [noKeys, Bool.not_false, Bool.and_self, if_true]
  rw [signum, if_neg (lt_irrefl 0), if_neg (lt_irrefl 0)]
  ring

/-! Section: Witness evaluation for C2 -/

/-- Witness for C2: at level 1 with the car at rest at `(12, 0.4, -10)`
facing the goal heading, a `dt = 0` tick signals Arrived; the theorem
yields the Arrived effects. -/
theorem C2_witness :
    (tick level1 noKeys 0 ⟨⟨12, 0.4, -10⟩, 0, 0, 0, 0⟩).state.velocity = 0 ∧
    (tick level1 noKeys 0 ⟨⟨12, 0.4, -10⟩, 0, 0, 0, 0⟩).state.position
      = pos3 level1 noKeys 0 ⟨⟨12, 0.4, -10⟩, 0, 0, 0, 0⟩ ∧
    (tick level1 noKeys 0 ⟨⟨12, 0.4, -10⟩, 0, 0, 0, 0⟩).state.rotY
      = postRot noKeys 0 ⟨⟨12, 0.4, -10⟩, 0, 0, 0, 0⟩ := by
  have hv : postVel noKeys 0 (⟨⟨12, 0.4, -10⟩, 0, 0, 0, 0⟩ : CarState) = 0 := by
    rw [postVel_noKeys]
    show dampStep noKeys 0 (clampStep noKeys 0) = 0
    rw [clampStep_noKeys_of_le 0 (by norm_num) (by norm_num), dampStep_noKeys_zero]
  have hr : postRot noKeys 0 (⟨⟨12, 0.4, -10⟩, 0, 0, 0, 0⟩ : CarState) = 0 :=
    postRot_noKeys 0 _
  have hm : movedPos noKeys 0 (⟨⟨12, 0.4, -10⟩, 0, 0, 0, 0⟩ : CarState)
      = ⟨12, 0.4, -10⟩ := by
    rw [movedPos, hv, hr]
    show V3.addScaledVector ⟨12, 0.4, -10⟩ (forwardMove 0) (0 * 0) = ⟨12, 0.4, -10⟩
    simp [V3.addScaledVector, forwardMove]
  have hbh : ¬ boundaryHit level1 noKeys 0 ⟨⟨12, 0.4, -10⟩, 0, 0, 0, 0⟩ := by
    rw [boundaryHit, hm, not_not]
    norm_num [Box3.containsPoint, boundsBox, computeBoundingBox, V3.sub, V3.add,
      V3.scale, V3.setY, level1]
  have hp2 : pos2 level1 noKeys 0 ⟨⟨12, 0.4, -10⟩, 0, 0, 0, 0⟩ = ⟨12, 0.4, -10⟩ := by
    rw [pos2, if_neg hbh, hm]
  have hoh : ¬ obstacleHit level1 noKeys 0 ⟨⟨12, 0.4, -10⟩, 0, 0, 0, 0⟩ := by
    rw [obstacleHit, hp2]
    rintro ⟨box, hbox, hint⟩
    simp only [obstacleBoxes, level1, List.map_cons, List.map_nil, List.mem_cons,
      List.not_mem_nil, or_false] at hbox
    rcases hbox with h | h | h <;> subst h <;>
      norm_num [Box3.intersectsBox, obstacleBox, carBox, carSize,
        computeBoundingBox, V3.sub, V3.add, V3.scale, V3.setY] at hint
  have hp3 : pos3 level1 noKeys 0 ⟨⟨12, 0.4, -10⟩, 0, 0, 0, 0⟩ = ⟨12, 0.4, -10⟩ := by
    rw [pos3, if_neg hoh, hp2]
  have hv2 : vel2 level1 noKeys 0 ⟨⟨12, 0.4, -10⟩, 0, 0, 0, 0⟩ = 0 := by
    rw [vel2, if_neg hbh, hv]
  have hv3 : vel3 level1 noKeys 0 ⟨⟨12, 0.4, -10⟩, 0, 0, 0, 0⟩ = 0 := by
    rw [vel3, if_neg hoh, hv2]
  have hin : (goalBox level1).containsPoint
      ((pos3 level1 noKeys 0 ⟨⟨12, 0.4, -10⟩, 0, 0, 0, 0⟩).setY 0.6) := by
    rw [hp3]
    norm_num [Box3.containsPoint, goalBox, computeBoundingBox, V3.sub, V3.add,
      V3.scale, V3.setY, level1]
  have hvel : |vel3 level1 noKeys 0 ⟨⟨12, 0.4, -10⟩, 0, 0, 0, 0⟩| < 1.2 := by
    rw [hv3, abs_zero]
    norm_num
  have hface : |toIocMod Real.two_pi_pos (-π)
      (postRot noKeys 0 ⟨⟨12, 0.4, -10⟩, 0, 0, 0, 0⟩ - level1.goalRotation)| < 0.3 := by
    have hg : level1.goalRotation = 0 := rfl
    rw [hr, hg, sub_zero]
    rw [(toIocMod_eq_self Real.two_pi_pos).2
      (Set.mem_Ioc.2 ⟨by linarith [Real.pi_pos], by linarith [Real.pi_pos]⟩)]
    rw [abs_zero]
    norm_num
  have harr : (tick level1 noKeys 0 ⟨⟨12, 0.4, -10⟩, 0, 0, 0, 0⟩).arrived :=
    (C2_theorem level1 noKeys 0 ⟨⟨12, 0.4, -10⟩, 0, 0, 0, 0⟩).1.mpr ⟨hin, hvel, hface⟩
  exact (C2_theorem level1 noKeys 0 ⟨⟨12, 0.4, -10⟩, 0, 0, 0, 0⟩).2 harr

/-! Section: C6: free rolling decays the speed -/

theorem maxSpeedOf_nonneg (keyboard : KeyboardState) : 0 ≤ maxSpeedOf keyboard := by
  unfold maxSpeedOf
  split <;> norm_num

theorem abs_clampStep_le_abs (keyboard : KeyboardState) (v : ℝ) :
    |clampStep keyboard v| ≤ |v| := by
  have hM : 0 ≤ maxSpeedOf keyboard := maxSpeedOf_nonneg keyboard
  rw [clampStep]
  rcases le_or_lt v (-10) with h | h
  · rw [min_eq_left (by linarith), max_eq_right h,
      abs_of_nonpos (by norm_num : (-10:ℝ) ≤ 0), abs_of_nonpos (by linarith)]
    linarith
  · rcases le_or_lt v (maxSpeedOf keyboard) with h2 | h2
    · rw [min_eq_left h2, max_eq_left (by linarith)]
    · rw [min_eq_right (by linarith), max_eq_left (by linarith),
        abs_of_nonneg hM, abs_of_nonneg (by linarith)]
      linarith

theorem abs_postVel_noKeys_le (delta : ℝ) (s : CarState) (hdt : 0 ≤ delta) :
    |postVel noKeys delta s| ≤ Max.max (|s.velocity| - 8 * delta) 0 := by
  rw [postVel_noKeys, dampStep]
  simp only [noKeys, Bool.not_false, Bool.and_self, if_true]
  rw [frictionOf]
  simp only [noKeys, Bool.or_self, Bool.false_eq_true, if_false]
  rw [abs_damp_sub _ _ (by linarith : (0:ℝ) ≤ 8 * delta)]
  exact max_le_max (sub_le_sub_right (abs_clampStep_le_abs noKeys _) _) le_rfl

theorem abs_vel2_le_abs_postVel (level : LevelDefinition) (keyboard : KeyboardState)
    (delta : ℝ) (s : CarState) :
    |vel2 level keyboard delta s| ≤ |postVel keyboard delta s| := by
  rw [vel2]
  split
  · exact abs_mul_le_of_abs_le_one _ _
      (by rw [abs_neg, abs_of_nonneg (by norm_num : (0:ℝ) ≤ 0.3)]; norm_num)
  · exact le_rfl

theorem abs_vel3_le_abs_vel2 (level : LevelDefinition) (keyboard : KeyboardState)
    (delta : ℝ) (s : CarState) :
    |vel3 level keyboard delta s| ≤ |vel2 level keyboard delta s| := by
  rw [vel3]
  split
  · exact abs_mul_le_of_abs_le_one _ _
      (by rw [abs_neg, abs_of_nonneg (by norm_num : (0:ℝ) ≤ 0.4)]; norm_num)
  · exact le_rfl

theorem abs_vel4_le_abs_vel3 (level : LevelDefinition) (keyboard : KeyboardState)
    (delta : ℝ) (s : CarState) :
    |vel4 level keyboard delta s| ≤ |vel3 level keyboard delta s| := by
  rw [vel4]
  split
  · rw [abs_zero]
    exact abs_nonneg _
  · exact le_rfl

/-- One free-rolling tick shrinks the speed by at least `8 * delta`
(saturating at zero): the damping removes `8 * delta` of magnitude and
every later phase (collision restitution, arrival zeroing, crash reset)
only shrinks it further. -/
theorem tickState_noKeys_abs_le (level : LevelDefinition) (delta : ℝ)
    (s : CarState) (hdt : 0 ≤ delta) :
    |(tickState level noKeys delta s).velocity|
      ≤ Max.max (|s.velocity| - 8 * delta) 0 := by
  by_cases hc : crashedProp level noKeys delta s
  · have hzero : (tickState level noKeys delta s).velocity = 0 := by
      show (if crashedProp level noKeys delta s then resetCarState level
        else { position := pos3 level noKeys delta s
               rotY := postRot noKeys delta s
               velocity := vel4 level noKeys delta s
               time := s.time + delta
               bumps := bumpsAfter level noKeys delta s }).velocity = 0
      rw [if_pos hc]
      rfl
    rw [hzero, abs_zero]
    exact le_max_right _ _
  · have hval : (tickState level noKeys delta s).velocity
        = vel4 level noKeys delta s := by
      show (if crashedProp level noKeys delta s then resetCarState level
        else { position := pos3 level noKeys delta s
               rotY := postRot noKeys delta s
               velocity := vel4 level noKeys delta s
               time := s.time + delta
               bumps := bumpsAfter level noKeys delta s }).velocity
        = vel4 level noKeys delta s
      rw [if_neg hc]
    rw [hval]
    exact le_trans (abs_vel4_le_abs_vel3 level noKeys delta s)
      (le_trans (abs_vel3_le_abs_vel2 level noKeys delta s)
        (le_trans (abs_vel2_le_abs_postVel level noKeys delta s)
          (abs_postVel_noKeys_le delta s hdt)))

/-- Claim C6 counterexample: free rolling at velocity `10` against the
far wall of level 1 reflects the velocity to `-2.76` in one tick: the
sign of the velocity flips, contrary to the claim. -/
theorem C6_counterexample :
    (0:ℝ) < (⟨⟨0, 0.4, 14⟩, 0, 10, 0, 0⟩ : CarState).velocity ∧
    (tickState level1 noKeys (1/10) ⟨⟨0, 0.4, 14⟩, 0, 10, 0, 0⟩).velocity = -2.76 ∧
    (tickState level1 noKeys (1/10) ⟨⟨0, 0.4, 14⟩, 0, 10, 0, 0⟩).velocity < 0 := by
  have hv : postVel noKeys (1/10) (⟨⟨0, 0.4, 14⟩, 0, 10, 0, 0⟩ : CarState) = 9.2 := by
    rw [postVel_noKeys]
    show dampStep noKeys (1/10) (clampStep noKeys 10) = 9.2
    rw [clampStep_noKeys_of_le 10 (by norm_num) (by norm_num),
      dampStep_noKeys_pos (1/10) 10 (by norm_num) (by norm_num)]
    norm_num
  have hr : postRot noKeys (1/10) (⟨⟨0, 0.4, 14⟩, 0, 10, 0, 0⟩ : CarState) = 0 :=
    postRot_noKeys (1/10) _
  have hm : movedPos noKeys (1/10) (⟨⟨0, 0.4, 14⟩, 0, 10, 0, 0⟩ : CarState)
      = ⟨0, 0.4, 14.92⟩ := by
    rw [movedPos, hv, hr]
    show V3.addScaledVector ⟨0, 0.4, 14⟩ (forwardMove 0) (9.2 * (1/10)) = ⟨0, 0.4, 14.92⟩
    simp [V3.addScaledVector, forwardMove]
    norm_num
  have hbh : boundaryHit level1 noKeys (1/10) ⟨⟨0, 0.4, 14⟩, 0, 10, 0, 0⟩ := by
    rw [boundaryHit, hm]
    norm_num [Box3.containsPoint, boundsBox, computeBoundingBox, V3.sub, V3.add,
      V3.scale, V3.setY, level1]
  have hp2 : pos2 level1 noKeys (1/10) ⟨⟨0, 0.4, 14⟩, 0, 10, 0, 0⟩ = ⟨0, 0.4, 14⟩ := by
    rw [pos2, if_pos hbh]
  have hv2 : vel2 level1 noKeys (1/10) ⟨⟨0, 0.4, 14⟩, 0, 10, 0, 0⟩ = -2.76 := by
    rw [vel2, if_pos hbh, hv]
    norm_num
  have hoh : ¬ obstacleHit level1 noKeys (1/10) ⟨⟨0, 0.4, 14⟩, 0, 10, 0, 0⟩ := by
    rw [obstacleHit, hp2]
    rintro ⟨box, hbox, hint⟩
    simp only [obstacleBoxes, level1, List.map_cons, List.map_nil, List.mem_cons,
      List.not_mem_nil, or_false] at hbox
    rcases hbox with h | h | h <;> subst h <;>
      norm_num [Box3.intersectsBox, obstacleBox, carBox, carSize,
        computeBoundingBox, V3.sub, V3.add, V3.scale, V3.setY] at hint
  have hp3 : pos3 level1 noKeys (1/10) ⟨⟨0, 0.4, 14⟩, 0, 10, 0, 0⟩ = ⟨0, 0.4, 14⟩ := by
    rw [pos3, if_neg hoh, hp2]
  have hv3 : vel3 level1 noKeys (1/10) ⟨⟨0, 0.4, 14⟩, 0, 10, 0, 0⟩ = -2.76 := by
    rw [vel3, if_neg hoh, hv2]
  have hnarr : ¬ arrivedProp level1 noKeys (1/10) ⟨⟨0, 0.4, 14⟩, 0, 10, 0, 0⟩ := by
    rintro ⟨hin, -, -⟩
    rw [hp3] at hin
    norm_num [Box3.containsPoint, goalBox, computeBoundingBox, V3.sub, V3.add,
      V3.scale, V3.setY, level1] at hin
  have hv4 : vel4 level1 noKeys (1/10) ⟨⟨0, 0.4, 14⟩, 0, 10, 0, 0⟩ = -2.76 := by
    rw [vel4, if_neg hnarr, hv3]
  have hnc : ¬ crashedProp level1 noKeys (1/10) ⟨⟨0, 0.4, 14⟩, 0, 10, 0, 0⟩ := by
    rw [crashedProp, overSpeed, hv4, abs_neg,
      abs_of_nonneg (by norm_num : (0:ℝ) ≤ 2.76)]
    norm_num
  have hval : (tickState level1 noKeys (1/10) ⟨⟨0, 0.4, 14⟩, 0, 10, 0, 0⟩).velocity
      = vel4 level1 noKeys (1/10) ⟨⟨0, 0.4, 14⟩, 0, 10, 0, 0⟩ := by
    show (if crashedProp level1 noKeys (1/10) ⟨⟨0, 0.4, 14⟩, 0, 10, 0, 0⟩ then
        resetCarState level1
      else { position := pos3 level1 noKeys (1/10) ⟨⟨0, 0.4, 14⟩, 0, 10, 0, 0⟩
             rotY := postRot noKeys (1/10) ⟨⟨0, 0.4, 14⟩, 0, 10, 0, 0⟩
             velocity := vel4 level1 noKeys (1/10) ⟨⟨0, 0.4, 14⟩, 0, 10, 0, 0⟩
             time := (⟨⟨0, 0.4, 14⟩, 0, 10, 0, 0⟩ : CarState).time + 1/10
             bumps := bumpsAfter level1 noKeys (1/10) ⟨⟨0, 0.4, 14⟩, 0, 10, 0, 0⟩ }).velocity
      = vel4 level1 noKeys (1/10) ⟨⟨0, 0.4, 14⟩, 0, 10, 0, 0⟩
    rw [if_neg hnc]
  refine ⟨by norm_num, ?_, ?_⟩
  · rw [hval, hv4]
  · rw [hval, hv4]
    norm_num

/-- Claim C6 (amended): with all intents false and `dt > 0`, iterating
the simulation step drives the speed monotonically to zero —
`|v_n| ≤ max (|v_0| - 8 n dt) 0` — though a collision reflection may
flip the velocity's sign on the way. -/
theorem C6_theorem (level : LevelDefinition) (s : CarState) (delta : ℝ)
    (hdt : 0 < delta) (n : ℕ) :
    |((tickState level noKeys delta)^[n] s).velocity|
      ≤ Max.max (|s.velocity| - 8 * n * delta) 0 := by
  induction n with
  | zero =>
      simp only [Function.iterate_zero, id_eq, Nat.cast_zero]
      refine le_trans (le_of_eq ?_) (le_max_left _ _)
      ring_nf
  | succ n ih =>
      rw [Function.iterate_succ_apply']
      refine le_trans (tickState_noKeys_abs_le level delta _ (le_of_lt hdt)) ?_
      apply max_le _ (le_max_right _ _)
      rcases le_total (|s.velocity| - 8 * n * delta) 0 with hcase | hcase
      · have h2 : |((tickState level noKeys delta)^[n] s).velocity| ≤ 0 := by
          rw [max_eq_right hcase] at ih
          exact ih
        refine le_trans ?_ (le_max_right _ _)
        linarith
      · rw [max_eq_left hcase] at ih
        refine le_trans ?_ (le_max_left _ _)
        push_cast
        linarith

/-- Witness for C6: three free-rolling ticks at level 1 from velocity 20. -/
theorem C6_witness :
    |((tickState level1 noKeys (1/10))^[3] ⟨⟨0, 0.4, 0⟩, 0, 20, 0, 0⟩).velocity|
      ≤ Max.max (|(⟨⟨0, 0.4, 0⟩, 0, 20, 0, 0⟩ : CarState).velocity| - 8 * 3 * (1/10)) 0 := by
  have h := C6_theorem level1 ⟨⟨0, 0.4, 0⟩, 0, 20, 0, 0⟩ (1/10) (by norm_num) 3
  simpa using h

/-! Section: C5: driving straight into an obstacle -/

/-- Full evaluation of the C5 scenario: level 1, no intents, `dt = 0.1`,
car at `(0, 0.4, -9)` heading `0` (straight at the central obstacle)
with velocity `20`.  Damping first reduces the velocity to `19.2`, the
move to `z = -7.08` collides with the obstacle box, so the position
reverts, the velocity becomes `19.2 * -0.4 = -7.68` and one bump is
recorded. -/
theorem tick_obstacle_eval :
    (tick level1 noKeys (1/10) ⟨⟨0, 0.4, -9⟩, 0, 20, 0, 0⟩).state.velocity = -7.68 ∧
    (tick level1 noKeys (1/10) ⟨⟨0, 0.4, -9⟩, 0, 20, 0, 0⟩).state.position
      = ⟨0, 0.4, -9⟩ ∧
    (tick level1 noKeys (1/10) ⟨⟨0, 0.4, -9⟩, 0, 20, 0, 0⟩).state.bumps = 1 := by
  have hv : postVel noKeys (1/10) (⟨⟨0, 0.4, -9⟩, 0, 20, 0, 0⟩ : CarState) = 19.2 := by
    rw [postVel_noKeys]
    show dampStep noKeys (1/10) (clampStep noKeys 20) = 19.2
    rw [clampStep_noKeys_of_le 20 (by norm_num) (by norm_num),
      dampStep_noKeys_pos (1/10) 20 (by norm_num) (by norm_num)]
    norm_num
  have hr : postRot noKeys (1/10) (⟨⟨0, 0.4, -9⟩, 0, 20, 0, 0⟩ : CarState) = 0 :=
    postRot_noKeys (1/10) _
  have hm : movedPos noKeys (1/10) (⟨⟨0, 0.4, -9⟩, 0, 20, 0, 0⟩ : CarState)
      = ⟨0, 0.4, -7.08⟩ := by
    rw [movedPos, hv, hr]
    show V3.addScaledVector ⟨0, 0.4, -9⟩ (forwardMove 0) (19.2 * (1/10))
      = ⟨0, 0.4, -7.08⟩
    simp [V3.addScaledVector, forwardMove]
    norm_num
  have hbh : ¬ boundaryHit level1 noKeys (1/10) ⟨⟨0, 0.4, -9⟩, 0, 20, 0, 0⟩ := by
    rw [boundaryHit, hm, not_not]
    norm_num [Box3.containsPoint, boundsBox, computeBoundingBox, V3.sub, V3.add,
      V3.scale, V3.setY, level1]
  have hp2 : pos2 level1 noKeys (1/10) ⟨⟨0, 0.4, -9⟩, 0, 20, 0, 0⟩
      = ⟨0, 0.4, -7.08⟩ := by
    rw [pos2, if_neg hbh, hm]
  have hv2 : vel2 level1 noKeys (1/10) ⟨⟨0, 0.4, -9⟩, 0, 20, 0, 0⟩ = 19.2 := by
    rw [vel2, if_neg hbh, hv]
  have hoh : obstacleHit level1 noKeys (1/10) ⟨⟨0, 0.4, -9⟩, 0, 20, 0, 0⟩ := by
    rw [obstacleHit, hp2]
    refine ⟨obstacleBox ⟨⟨0, 0, 0⟩, ⟨4, 2, 16⟩, none⟩, ?_, ?_⟩
    · simp [obstacleBoxes, level1]
    · norm_num [Box3.intersectsBox, obstacleBox, carBox, carSize,
        computeBoundingBox, V3.sub, V3.add, V3.scale, V3.setY]
  have hp3 : pos3 level1 noKeys (1/10) ⟨⟨0, 0.4, -9⟩, 0, 20, 0, 0⟩
      = ⟨0, 0.4, -9⟩ := by
    rw [pos3, if_pos hoh]
  have hv3 : vel3 level1 noKeys (1/10) ⟨⟨0, 0.4, -9⟩, 0, 20, 0, 0⟩ = -7.68 := by
    rw [vel3, if_pos hoh, hv2]
    norm_num
  have hnarr : ¬ arrivedProp level1 noKeys (1/10) ⟨⟨0, 0.4, -9⟩, 0, 20, 0, 0⟩ := by
    rintro ⟨hin, -, -⟩
    rw [hp3] at hin
    norm_num [Box3.containsPoint, goalBox, computeBoundingBox, V3.sub, V3.add,
      V3.scale, V3.setY, level1] at hin
  have hv4 : vel4 level1 noKeys (1/10) ⟨⟨0, 0.4, -9⟩, 0, 20, 0, 0⟩ = -7.68 := by
    rw [vel4, if_neg hnarr, hv3]
  have hnc : ¬ crashedProp level1 noKeys (1/10) ⟨⟨0, 0.4, -9⟩, 0, 20, 0, 0⟩ := by
    rw [crashedProp, overSpeed, hv4, abs_neg,
      abs_of_nonneg (by norm_num : (0:ℝ) ≤ 7.68)]
    norm_num
  have hstate : (tick level1 noKeys (1/10) ⟨⟨0, 0.4, -9⟩, 0, 20, 0, 0⟩).state
      = { position := pos3 level1 noKeys (1/10) ⟨⟨0, 0.4, -9⟩, 0, 20, 0, 0⟩
          rotY := postRot noKeys (1/10) ⟨⟨0, 0.4, -9⟩, 0, 20, 0, 0⟩
          velocity := vel4 level1 noKeys (1/10) ⟨⟨0, 0.4, -9⟩, 0, 20, 0, 0⟩
          time := (⟨⟨0, 0.4, -9⟩, 0, 20, 0, 0⟩ : CarState).time + 1/10
          bumps := bumpsAfter level1 noKeys (1/10) ⟨⟨0, 0.4, -9⟩, 0, 20, 0, 0⟩ } := by
    rw [tick]
    exact if_neg hnc
  have hbumps : bumpsAfter level1 noKeys (1/10) ⟨⟨0, 0.4, -9⟩, 0, 20, 0, 0⟩ = 1 := by
    rw [bumpsAfter, if_neg hbh, if_pos hoh]
  refine ⟨?_, ?_, ?_⟩
  · rw [hstate]
    exact hv4
  · rw [hstate]
    exact hp3
  · rw [hstate]
    exact hbumps

/-- Claim C5 counterexample: in the prescribed scenario the resulting
velocity is `-7.68`, not `-8`: the claim ignores that passive damping
(at 8 units/s²) acts on the incoming velocity before the move. -/
theorem C5_counterexample :
    ¬ (tick level1 noKeys (1/10) ⟨⟨0, 0.4, -9⟩, 0, 20, 0, 0⟩).state.velocity = -8 := by
  rw [tick_obstacle_eval.1]
  norm_num

/-- Claim C5 (amended): entering the tick at velocity 20 straight into
an obstacle spanning the destination with `dt = 0.1` yields velocity
`(20 - 8*0.1) * -0.4 = -7.68` exactly, the pre-tick position exactly,
and exactly one additional bump. -/
theorem C5_theorem :
    (tick level1 noKeys (1/10) ⟨⟨0, 0.4, -9⟩, 0, 20, 0, 0⟩).state.velocity
      = (20 - 8 * (1/10)) * (-0.4) ∧
    (tick level1 noKeys (1/10) ⟨⟨0, 0.4, -9⟩, 0, 20, 0, 0⟩).state.position
      = ⟨0, 0.4, -9⟩ ∧
    (tick level1 noKeys (1/10) ⟨⟨0, 0.4, -9⟩, 0, 20, 0, 0⟩).state.bumps = 1 := by
  refine ⟨?_, tick_obstacle_eval.2.1, tick_obstacle_eval.2.2⟩
  rw [tick_obstacle_eval.1]
  norm_num

/-! Section: C10: Arrived while not playing is ignored -/

/-- Claim C10: an Arrived event delivered while the progression state is
not `playing` leaves the whole controller state (progression status and
both session accumulators) unchanged. -/
theorem C10_theorem (g : GameStatus) (totalTime : ℝ) (totalBumps resetSignal : ℕ)
    (elapsed : ℝ) (bumps : ℕ)
    (h : ∀ i startedAt, g ≠ GameStatus.playing i startedAt) :
    handleSuccess ⟨g, totalTime, totalBumps, resetSignal⟩ elapsed bumps
      = ⟨g, totalTime, totalBumps, resetSignal⟩ := by
  cases g with
  | intro => rfl
  | playing i st => exact absurd rfl (h i st)
  | success _ _ _ => rfl
  | complete _ _ => rfl

/-- Witness for C10 with the progression at the intro screen. -/
theorem C10_witness :
    handleSuccess ⟨GameStatus.intro, 1, 2, 3⟩ 4 5 = ⟨GameStatus.intro, 1, 2, 3⟩ :=
  C10_theorem GameStatus.intro 1 2 3 4 5 (fun i st h => GameStatus.noConfusion h)

end PoliceParking
